import Mathlib

/-!
Verification of the akwam-site backend (src/backend/src/main.py and
src/backend/src/models.py) against its natural-language specification.

The FastAPI endpoints in main.py are embedded as pure Lean functions over an
explicit cache state.  JSON values (the payloads produced by `json.dumps` /
`json.loads`) are modelled by the inductive type `Json`; since
`json.dumps` always returns a non-empty string, Python's truthiness test
`if cached:` on the string returned by `redis_client.get` is equivalent to
"an entry for the key is present and unexpired", which is how `Cache.get`
models it.  The upstream resolver functions (`get_home_content`,
`perform_search`, `get_movie_info`, `get_series_info`,
`extract_video_sources`, `get_category_content`) are passed to each endpoint
as explicit function parameters; the placeholder bodies that appear in
main.py are also embedded under their source names for use as concrete
instantiations.
-/

/-- JSON values, the payloads moved between the endpoints and the Redis
cache (Python dicts/lists/strings/numbers/booleans/None). -/
inductive Json where
  | null
  | bool (b : Bool)
  | num (n : Int)
  | str (s : String)
  | arr (xs : List Json)
  | obj (fields : List (String × Json))

/-- Python truthiness of a JSON-representable value: `None`, `False`, `0`,
`""`, `[]` and `{}` are falsy, everything else is truthy.  This is the test
applied by `if movie_data:`, `if series_data:` and `if sources:` in
main.py. -/
def pyTruthy : Json → Bool
  | Json.null => false
  | Json.bool b => b
  | Json.num n => n != 0
  | Json.str s => s ≠ ""
  | Json.arr xs => !xs.isEmpty
  | Json.obj fields => !fields.isEmpty

/-- The Redis cache state: an association list of key, value and absolute
expiry time (in seconds).  `redis_client.setex key ttl value` stores `value`
under `key` with expiry `now + ttl`. -/
def Cache := List (String × Json × Nat)

/-- The empty cache. -/
def Cache.empty : Cache := ([] : List (String × Json × Nat))

/-- `redis_client.get key` at time `now`: the stored value if an entry for
`key` is present and unexpired, otherwise `none` (Redis deletes expired
keys on read). -/
def Cache.get (c : Cache) (k : String) (now : Nat) : Option Json :=
  match List.find? (fun e => e.1 == k) c with
  | some (_, v, exp) => if now < exp then some v else none
  | none => none

/-- `redis_client.setex key ttl value` at time `now`: replace any entry for
`key` by `value` with expiry `now + ttl`. -/
def Cache.setex (c : Cache) (k : String) (ttl : Nat) (v : Json) (now : Nat) : Cache :=
  (k, v, now + ttl) :: List.filter (fun e => e.1 != k) c

/-- The raw entry stored for a key: its value and its absolute expiry
time. -/
def Cache.findEntry (c : Cache) (k : String) : Option (Json × Nat) :=
  (List.find? (fun e => e.1 == k) c).map (fun e => (e.2.1, e.2.2))

/-- Result of one endpoint invocation: the JSON response returned to the
client, the cache state after the call, and whether the upstream resolver
was invoked during the call. -/
structure ApiResult where
  response : Json
  cache : Cache
  resolved : Bool

/-- Cache key used by `get_home_page`: `f"home_page_{page}"`. -/
def home_cache_key (page : Int) : String := "home_page_" ++ toString page

/-- Cache key used by `search_content`: `f"search_{request.query}_{request.page}"`.
The query is used verbatim (no trimming, no lower-casing). -/
def search_cache_key (query : String) (page : Int) : String :=
  "search_" ++ query ++ "_" ++ toString page

/-- Cache key used by `get_movie_details`: `f"movie_{movie_id}"`. -/
def movie_cache_key (movie_id : String) : String := "movie_" ++ movie_id

/-- Cache key used by `get_series_details`: `f"series_{series_id}"`. -/
def series_cache_key (series_id : String) : String := "series_" ++ series_id

/-- Cache key used by `get_video_sources`: `f"watch_{content_id}"`. -/
def watch_cache_key (content_id : String) : String := "watch_" ++ content_id

/-- Cache key used by `get_category`: `f"category_{category}_{page}"`. -/
def category_cache_key (category : String) (page : Int) : String :=
  "category_" ++ category ++ "_" ++ toString page

/-- `GET /api/home` (main.py `get_home_page`): read-through on
`home_page_{page}`; on a miss the resolver result is cached for 3600 s
unconditionally. -/
def get_home_page (get_home_content : Int → Json) (page : Int)
    (c : Cache) (now : Nat) : ApiResult :=
  match Cache.get c (home_cache_key page) now with
  | some cached => ⟨cached, c, false⟩
  | none =>
    ⟨get_home_content page,
      Cache.setex c (home_cache_key page) 3600 (get_home_content page) now, true⟩

/-- `POST /api/search` (main.py `search_content`): read-through on
`search_{query}_{page}`; on a miss the resolver result is cached for 1800 s
unconditionally. -/
def search_content (perform_search : String → Int → Json) (query : String) (page : Int)
    (c : Cache) (now : Nat) : ApiResult :=
  match Cache.get c (search_cache_key query page) now with
  | some cached => ⟨cached, c, false⟩
  | none =>
    ⟨perform_search query page,
      Cache.setex c (search_cache_key query page) 1800 (perform_search query page) now, true⟩

/-- `GET /api/movie/{movie_id}` (main.py `get_movie_details`): read-through
on `movie_{movie_id}`; on a miss the resolver result is cached for 7200 s
only when it is truthy (`if movie_data:`). -/
def get_movie_details (get_movie_info : String → Json) (movie_id : String)
    (c : Cache) (now : Nat) : ApiResult :=
  match Cache.get c (movie_cache_key movie_id) now with
  | some cached => ⟨cached, c, false⟩
  | none =>
    ⟨get_movie_info movie_id,
      if pyTruthy (get_movie_info movie_id) then
        Cache.setex c (movie_cache_key movie_id) 7200 (get_movie_info movie_id) now
      else c,
      true⟩

/-- `GET /api/series/{series_id}` (main.py `get_series_details`):
read-through on `series_{series_id}`; on a miss the resolver result is
cached for 7200 s only when it is truthy (`if series_data:`). -/
def get_series_details (get_series_info : String → Json) (series_id : String)
    (c : Cache) (now : Nat) : ApiResult :=
  match Cache.get c (series_cache_key series_id) now with
  | some cached => ⟨cached, c, false⟩
  | none =>
    ⟨get_series_info series_id,
      if pyTruthy (get_series_info series_id) then
        Cache.setex c (series_cache_key series_id) 7200 (get_series_info series_id) now
      else c,
      true⟩

/-- `GET /api/watch/{content_id}` (main.py `get_video_sources`):
read-through on `watch_{content_id}`; on a miss the resolver result is
cached for 3600 s only when it is truthy (`if sources:`). -/
def get_video_sources (extract_video_sources : String → Json) (content_id : String)
    (c : Cache) (now : Nat) : ApiResult :=
  match Cache.get c (watch_cache_key content_id) now with
  | some cached => ⟨cached, c, false⟩
  | none =>
    ⟨extract_video_sources content_id,
      if pyTruthy (extract_video_sources content_id) then
        Cache.setex c (watch_cache_key content_id) 3600 (extract_video_sources content_id) now
      else c,
      true⟩

/-- `GET /api/category/{category}` (main.py `get_category`): read-through on
`category_{category}_{page}`; on a miss the resolver result is cached for
3600 s unconditionally. -/
def get_category (get_category_content : String → Int → Json) (category : String) (page : Int)
    (c : Cache) (now : Nat) : ApiResult :=
  match Cache.get c (category_cache_key category page) now with
  | some cached => ⟨cached, c, false⟩
  | none =>
    ⟨get_category_content category page,
      Cache.setex c (category_cache_key category page) 3600 (get_category_content category page) now,
      true⟩

/-- main.py placeholder resolver `get_home_content`. -/
def get_home_content (_page : Int) : Json :=
  Json.obj [("sections", Json.arr []), ("featured", Json.arr [])]

/-- main.py placeholder resolver `perform_search`. -/
def perform_search (_query : String) (_page : Int) : Json :=
  Json.obj [("results", Json.arr []), ("total_pages", Json.num 0)]

/-- main.py placeholder resolver `get_movie_info`: returns `None`. -/
def get_movie_info (_movie_id : String) : Json := Json.null

/-- main.py placeholder resolver `get_series_info`: returns `None`. -/
def get_series_info (_series_id : String) : Json := Json.null

/-- main.py placeholder resolver `extract_video_sources`: returns `[]`. -/
def extract_video_sources (_content_id : String) : Json := Json.arr []

/-- main.py placeholder resolver `get_category_content`. -/
def get_category_content (_category : String) (_page : Int) : Json :=
  Json.obj [("items", Json.arr []), ("total_pages", Json.num 0)]

/-- A key that misses at time `now` still misses at any later time. -/
theorem Cache.get_none_mono {c : Cache} {k : String} {now now' : Nat}
    (h : Cache.get c k now = none) (hle : now ≤ now') : Cache.get c k now' = none := by
  unfold Cache.get at h ⊢
  cases hf : List.find? (fun e => e.1 == k) c with
  | none => rfl
  | some e =>
    obtain ⟨_, v, exp⟩ := e
    rw [hf] at h
    simp only at h ⊢
    split at h
    · exact absurd h (by simp)
    · split
      · omega
      · rfl

/-- Looking up the key just written by `setex` yields the stored value while
it is unexpired. -/
theorem Cache.get_setex_self (c : Cache) (k : String) (ttl : Nat) (v : Json)
    (now now' : Nat) :
    Cache.get (Cache.setex c k ttl v now) k now' =
      if now' < now + ttl then some v else none := by
  unfold Cache.get Cache.setex
  simp [List.find?]

/-- The entry stored by `setex` carries expiry `now + ttl`. -/
theorem Cache.findEntry_setex_self (c : Cache) (k : String) (ttl : Nat) (v : Json)
    (now : Nat) :
    Cache.findEntry (Cache.setex c k ttl v now) k = some (v, now + ttl) := by
  unfold Cache.findEntry Cache.setex
  simp [List.find?]

/-- models.py `Quality`: enum {SD, HD, FHD, UHD}. -/
inductive Quality where
  | SD
  | HD
  | FHD
  | UHD
deriving DecidableEq

/-- models.py `MovieBase.validate_year`: `if v and (v < 1900 or
v > datetime.now().year + 1): raise ValueError('Invalid year')`.  The
current year is a parameter.  Note the Python truthiness guard `if v`:
the check is skipped when the year is absent or equal to 0. -/
def validate_year (current_year : Int) (v : Option Int) : Except String (Option Int) :=
  match v with
  | none => Except.ok none
  | some y =>
    if y ≠ 0 ∧ (y < 1900 ∨ y > current_year + 1) then Except.error "Invalid year"
    else Except.ok (some y)

/-- Raw (loosely-typed) input for constructing a models.py `MovieBase`;
`none` means the field is absent. -/
structure MovieInput where
  id : Option String := none
  title : Option String := none
  original_title : Option String := none
  description : Option String := none
  year : Option Int := none
  duration : Option Int := none
  rating : Option Rat := none

/-- A validated models.py `MovieBase`. -/
structure MovieBase where
  id : String
  title : String
  original_title : Option String
  description : Option String
  year : Option Int
  duration : Option Int
  rating : Option Rat

/-- Pydantic construction of a models.py `MovieBase` from raw input, in
field declaration order: `id` and `title` are required (`Field(...)`) with
no further constraint, `rating` carries `ge=0, le=10`, and `year` runs
`validate_year`.  Errors are `(field, reason)` pairs. -/
def validateMovie (current_year : Int) (i : MovieInput) : Except (String × String) MovieBase :=
  match i.id with
  | none => Except.error ("id", "field required")
  | some idv =>
    match i.title with
    | none => Except.error ("title", "field required")
    | some t =>
      match validate_year current_year i.year with
      | Except.error msg => Except.error ("year", msg)
      | Except.ok y =>
        match i.rating with
        | none =>
          Except.ok ⟨idv, t, i.original_title, i.description, y, i.duration, none⟩
        | some r =>
          if 0 ≤ r ∧ r ≤ 10 then
            Except.ok ⟨idv, t, i.original_title, i.description, y, i.duration, some r⟩
          else Except.error ("rating", "out of range")

/-- Python `s.startswith(p)`, modelled on the underlying character lists. -/
def pyStartsWith (s p : String) : Bool := List.isPrefixOf p.data s.data

/-- Python `s.strip()`: remove leading and trailing whitespace, modelled on
the underlying character lists. -/
def pyStrip (s : String) : String :=
  ⟨((s.data.dropWhile Char.isWhitespace).reverse.dropWhile Char.isWhitespace).reverse⟩

/-- models.py `EpisodeBase.validate_title`: `if not v or v.strip() == "":
raise ValueError('Title cannot be empty')`, else `return v.strip()`. -/
def validate_title (v : String) : Except String String :=
  if v = "" ∨ pyStrip v = "" then Except.error "Title cannot be empty"
  else Except.ok (pyStrip v)

/-- models.py `VideoSource.validate_url`: `if not v or not
v.startswith(('http://', 'https://', '//')): raise ValueError('Invalid URL
format')`. -/
def validate_url (v : String) : Except String String :=
  if v = "" ∨ ¬(pyStartsWith v "http://" ∨ pyStartsWith v "https://" ∨ pyStartsWith v "//")
  then Except.error "Invalid URL format"
  else Except.ok v

/-- A validated models.py `VideoSource`. -/
structure VideoSource where
  url : String
  quality : Quality
  type : String
  size : Option String
  bitrate : Option Int
  width : Option Int
  height : Option Int
  is_direct : Bool
  requires_proxy : Bool
deriving DecidableEq

/-- Raw input for constructing a models.py `VideoSource`; `none` means the
field is absent, in which case the model's declared default applies. -/
structure VideoSourceInput where
  url : Option String := none
  quality : Option Quality := none
  type : Option String := none
  size : Option String := none
  bitrate : Option Int := none
  width : Option Int := none
  height : Option Int := none
  is_direct : Option Bool := none
  requires_proxy : Option Bool := none

/-- Pydantic construction of a models.py `VideoSource` from raw input:
`url` is required and must pass `validate_url`; all other fields take
their declared defaults when absent (`quality = HD`, `type = "video/mp4"`,
`is_direct = True`, `requires_proxy = False`).  No other validator exists
on this model: in particular nothing relates `requires_proxy` and
`is_direct`. -/
def validateVideoSource (i : VideoSourceInput) : Except (String × String) VideoSource :=
  match i.url with
  | none => Except.error ("url", "field required")
  | some u =>
    match validate_url u with
    | Except.error msg => Except.error ("url", msg)
    | Except.ok u' =>
      Except.ok
        ⟨u', i.quality.getD Quality.HD, i.type.getD "video/mp4", i.size,
          i.bitrate, i.width, i.height, i.is_direct.getD true,
          i.requires_proxy.getD false⟩

/-- Modelled from the spec: the total order SD < HD < FHD < UHD on
`Quality` (spec §3), as a numeric rank.  The source contains no selector
code (main.py's `extract_video_sources` is a placeholder returning `[]`),
so the Video Source Selector of spec §4.3 is modelled from the spec's
words here and below. -/
def qualityRank : Quality → Nat
  | Quality.SD => 0
  | Quality.HD => 1
  | Quality.FHD => 2
  | Quality.UHD => 3

/-- Modelled from the spec: the tertiary bitrate comparison of §4.3,
"bitrate descending when present".  A present bitrate admits `a` before `b`
when `a`'s bitrate is at least `b`'s; a source without a bitrate ranks
after sources with one (at equal quality and directness) and ties with
other bitrate-less sources, so tied sources keep input order under a
stable sort. -/
def bitrateLe (a b : Option Int) : Bool :=
  match a, b with
  | some x, some y => y ≤ x
  | some _, none => true
  | none, some _ => false
  | none, none => true

/-- Modelled from the spec: §4.3's best-first comparison — primary key
quality descending, secondary key `is_direct` descending, tertiary key
bitrate descending.  `sourceLe a b` holds when `a` may be placed before
`b`. -/
def sourceLe (a b : VideoSource) : Bool :=
  if qualityRank a.quality = qualityRank b.quality then
    if a.is_direct = b.is_direct then bitrateLe a.bitrate b.bitrate
    else a.is_direct
  else decide (qualityRank b.quality < qualityRank a.quality)

/-- The §4.3 comparison as a relation, for use with the stable sort. -/
def SourceR (a b : VideoSource) : Prop := sourceLe a b = true

instance : DecidableRel SourceR := fun a b => inferInstanceAs (Decidable (sourceLe a b = true))

/-- Modelled from the spec: the Video Source Selector of §4.3 — a stable
sort of the candidate sources, best first. -/
def rankSources (l : List VideoSource) : List VideoSource :=
  List.insertionSort SourceR l

theorem bitrateLe_trans {a b c : Option Int} (h₁ : bitrateLe a b = true)
    (h₂ : bitrateLe b c = true) : bitrateLe a c = true := by
  unfold bitrateLe at h₁ h₂ ⊢
  rcases a with _ | x <;> rcases b with _ | y <;> rcases c with _ | z <;>
    simp_all <;> omega

theorem sourceLe_total (a b : VideoSource) : sourceLe a b = true ∨ sourceLe b a = true := by
  unfold sourceLe
  by_cases hab : qualityRank a.quality = qualityRank b.quality
  · rw [if_pos hab, if_pos hab.symm]
    by_cases dab : a.is_direct = b.is_direct
    · rw [if_pos dab, if_pos dab.symm]
      unfold bitrateLe
      rcases a.bitrate with _ | x <;> rcases b.bitrate with _ | y <;> simp <;> omega
    · rw [if_neg dab, if_neg (fun hh => dab hh.symm)]
      rcases ha : a.is_direct
      · right
        rcases hb : b.is_direct
        · exact absurd (ha.trans hb.symm) dab
        · rfl
      · left; rfl
  · rw [if_neg hab, if_neg (fun hh => hab hh.symm), decide_eq_true_eq, decide_eq_true_eq]
    omega

theorem sourceLe_trans (a b c : VideoSource) (h₁ : sourceLe a b = true)
    (h₂ : sourceLe b c = true) : sourceLe a c = true := by
  unfold sourceLe at h₁ h₂ ⊢
  by_cases hab : qualityRank a.quality = qualityRank b.quality
  · rw [if_pos hab] at h₁
    by_cases hbc : qualityRank b.quality = qualityRank c.quality
    · rw [if_pos hbc] at h₂
      rw [if_pos (hab.trans hbc)]
      by_cases dab : a.is_direct = b.is_direct
      · rw [if_pos dab] at h₁
        by_cases dbc : b.is_direct = c.is_direct
        · rw [if_pos dbc] at h₂
          rw [if_pos (dab.trans dbc)]
          exact bitrateLe_trans h₁ h₂
        · rw [if_neg dbc] at h₂
          have dac : ¬(a.is_direct = c.is_direct) := by rw [dab]; exact dbc
          rw [if_neg dac, dab]
          exact h₂
      · rw [if_neg dab] at h₁
        have hbf : b.is_direct = false := by
          rcases hb : b.is_direct
          · rfl
          · exact absurd (h₁.trans hb.symm) dab
        by_cases dbc : b.is_direct = c.is_direct
        · have hcf : c.is_direct = false := dbc.symm.trans hbf
          have dac : ¬(a.is_direct = c.is_direct) := by rw [h₁, hcf]; simp
          rw [if_neg dac]
          exact h₁
        · rw [if_neg dbc, hbf] at h₂
          cases h₂
    · rw [if_neg hbc, decide_eq_true_eq] at h₂
      have hac : ¬(qualityRank a.quality = qualityRank c.quality) := by omega
      rw [if_neg hac, decide_eq_true_eq]
      omega
  · rw [if_neg hab, decide_eq_true_eq] at h₁
    have h₂' : qualityRank c.quality ≤ qualityRank b.quality := by
      by_cases hbc : qualityRank b.quality = qualityRank c.quality
      · omega
      · rw [if_neg hbc, decide_eq_true_eq] at h₂
        omega
    have hac : ¬(qualityRank a.quality = qualityRank c.quality) := by omega
    rw [if_neg hac, decide_eq_true_eq]
    omega

instance : IsTotal VideoSource SourceR := ⟨sourceLe_total⟩

instance : IsTrans VideoSource SourceR := ⟨sourceLe_trans⟩

/-- Phase of one in-flight `GET /api/home` request task.  In main.py the
Redis calls are synchronous, so each request runs atomically from its start
up to `await get_home_content(page)` (phase `ready` → `resolving`), and
atomically from the resolver's completion to the response (`resolving` →
`finished`).  `resolving` carries the data the resolver will deliver. -/
inductive TaskPhase where
  | ready (page : Int)
  | resolving (page : Int) (data : Json)
  | finished (response : Json)

/-- State of the event loop: the shared Redis cache, the per-request tasks,
the number of upstream resolutions started so far, and the (fixed) current
time. -/
structure Sys where
  cache : Cache
  tasks : List TaskPhase
  resolutions : Nat
  now : Nat

/-- Run the next atomic block of task `i` (main.py `get_home_page`): a
`ready` task reads the cache and either finishes on a hit or starts its own
resolution on a miss; a `resolving` task writes the resolver's data to the
cache with TTL 3600 and finishes. -/
def stepTask (resolver : Int → Json) (s : Sys) (i : Nat) : Sys :=
  match s.tasks[i]? with
  | none => s
  | some (TaskPhase.ready page) =>
    match Cache.get s.cache (home_cache_key page) s.now with
    | some v => { s with tasks := s.tasks.set i (TaskPhase.finished v) }
    | none =>
      { s with
          tasks := s.tasks.set i (TaskPhase.resolving page (resolver page)),
          resolutions := s.resolutions + 1 }
  | some (TaskPhase.resolving page d) =>
    { s with
        cache := Cache.setex s.cache (home_cache_key page) 3600 d s.now,
        tasks := s.tasks.set i (TaskPhase.finished d) }
  | some (TaskPhase.finished _) => s

/-- Run a schedule: a list of task indices, each naming the task whose next
atomic block runs. -/
def runSched (resolver : Int → Json) (s : Sys) (sched : List Nat) : Sys :=
  sched.foldl (stepTask resolver) s

/-- C2 counterexample: the claim says the Search cache key is derived from
the trimmed, lower-cased query, so `"Batman"` and `"batman"` (and
`" batman "`) would map to the same key; in the code the raw query is
interpolated verbatim, so the keys differ. -/
theorem C2_counterexample :
    search_cache_key "Batman" 1 ≠ search_cache_key "batman" 1 ∧
    search_cache_key " batman " 1 ≠ search_cache_key "batman" 1 := by
  constructor <;> decide

/-- C2 (amended): the Search cache key uses the raw query verbatim
(`search_<query>_<page>`), so any two distinct queries — in particular two
that differ only in letter case or surrounding whitespace — map to distinct
cache keys at the same page. -/
theorem C2_raw_query_key (q r : String) (p : Int) (hqr : q ≠ r) :
    search_cache_key q p ≠ search_cache_key r p := by
  intro h
  apply hqr
  apply String.ext
  unfold search_cache_key at h
  have h' := congrArg String.data h
  simp only [String.data_append, List.append_assoc] at h'
  exact List.append_cancel_right (List.append_cancel_left h')

/-- Witness for C2_raw_query_key at a concrete input. -/
theorem C2_raw_query_key_witness :
    "Batman" ≠ "batman" ∧ search_cache_key "Batman" 2 ≠ search_cache_key "batman" 2 :=
  ⟨by decide, C2_raw_query_key "Batman" "batman" 2 (by decide)⟩

/-- C5 counterexample: the claim says no validated `VideoSource` has both
`requires_proxy = true` and `is_direct = true`; models.py has no such
validator, so an input with a well-formed URL and both flags true validates
successfully. -/
theorem C5_counterexample :
    validateVideoSource
        { url := some "http://example.com/v.mp4", is_direct := some true,
          requires_proxy := some true } =
      Except.ok
        ⟨"http://example.com/v.mp4", Quality.HD, "video/mp4", none, none, none, none,
          true, true⟩ := by
  rfl

/-- C5 (amended): `VideoSource` validation enforces only the URL-shape
invariant; `requires_proxy` and `is_direct` are passed through unchanged
(defaulting to `false` resp. `true` when absent), with no relation between
them enforced. -/
theorem C5_flags_passthrough (i : VideoSourceInput) (u : String)
    (hu : i.url = some u) (hne : u ≠ "")
    (hpre : pyStartsWith u "http://" = true ∨ pyStartsWith u "https://" = true ∨
      pyStartsWith u "//" = true) :
    validateVideoSource i =
      Except.ok
        ⟨u, i.quality.getD Quality.HD, i.type.getD "video/mp4", i.size,
          i.bitrate, i.width, i.height, i.is_direct.getD true,
          i.requires_proxy.getD false⟩ := by
  have hc : ¬(u = "" ∨ ¬(pyStartsWith u "http://" = true ∨ pyStartsWith u "https://" = true ∨
      pyStartsWith u "//" = true)) := by
    push_neg
    exact ⟨hne, hpre⟩
  obtain ⟨iu, iq, ity, isz, ib, iw, ih, idr, ipx⟩ := i
  dsimp only at hu ⊢
  subst hu
  unfold validateVideoSource validate_url
  dsimp only
  rw [if_neg hc]

/-- Witness for C5_flags_passthrough at a concrete input. -/
theorem C5_flags_passthrough_witness :
    ({ url := some "https://cdn.example.com/a.m3u8", requires_proxy := some true } :
        VideoSourceInput).url = some "https://cdn.example.com/a.m3u8" ∧
    validateVideoSource
        { url := some "https://cdn.example.com/a.m3u8", requires_proxy := some true } =
      Except.ok
        ⟨"https://cdn.example.com/a.m3u8", Quality.HD, "video/mp4", none, none, none,
          none, true, true⟩ :=
  ⟨rfl,
    C5_flags_passthrough _ "https://cdn.example.com/a.m3u8" rfl (by decide)
      (Or.inr (Or.inl (by decide)))⟩

/-- C6 counterexample: the claim says every present year outside
1900..current_year+1 (for example 0) is rejected; because `validate_year`
guards with Python truthiness (`if v and ...`), `year = 0` is accepted. -/
theorem C6_counterexample :
    validateMovie 2026 { id := some "m1", title := some "Test", year := some 0 } =
      Except.ok ⟨"m1", "Test", none, none, some 0, none, none⟩ := by
  rfl

/-- C6 (amended): with `id` and `title` present and a year present, a
nonzero year outside 1900..current_year+1 fails with a `ValidationError`
naming the `year` field, and validation succeeds exactly when the year is 0
or within range (and any present rating is within 0..10); `year = 0` slips
through the truthiness guard. -/
theorem C6_year_validation (cy : Int) (a t : String) (io idc : Option String)
    (y : Int) (idu : Option Int) (ir : Option Rat) :
    (y ≠ 0 → (y < 1900 ∨ y > cy + 1) →
      validateMovie cy ⟨some a, some t, io, idc, some y, idu, ir⟩ =
        Except.error ("year", "Invalid year")) ∧
    ((validateMovie cy ⟨some a, some t, io, idc, some y, idu, ir⟩).isOk = true ↔
      ((y = 0 ∨ (1900 ≤ y ∧ y ≤ cy + 1)) ∧ (∀ r, ir = some r → 0 ≤ r ∧ r ≤ 10))) := by
  unfold validateMovie validate_year
  dsimp only
  by_cases hcond : y ≠ 0 ∧ (y < 1900 ∨ y > cy + 1)
  · rw [if_pos hcond]
    dsimp only
    constructor
    · intro _ _
      rfl
    · constructor
      · intro hfalse
        cases hfalse
      · rintro ⟨hy0, -⟩
        rcases hcond with ⟨h1, h2⟩
        rcases hy0 with h0 | hin
        · exact absurd h0 h1
        · rcases h2 with h2 | h2 <;> omega
  · rw [if_neg hcond]
    dsimp only
    push_neg at hcond
    constructor
    · intro hy0 hout
      exfalso
      have hin := hcond hy0
      rcases hout with h | h <;> omega
    · rcases ir with _ | r <;> dsimp only
      · constructor
        · intro _
          refine ⟨?_, ?_⟩
          · by_cases h0 : y = 0
            · exact Or.inl h0
            · exact Or.inr (hcond h0)
          · intro r' hr'
            cases hr'
        · intro _
          rfl
      · by_cases hrange : 0 ≤ r ∧ r ≤ 10
        · rw [if_pos hrange]
          constructor
          · intro _
            refine ⟨?_, ?_⟩
            · by_cases h0 : y = 0
              · exact Or.inl h0
              · exact Or.inr (hcond h0)
            · intro r' hr'
              cases hr'
              exact hrange
          · intro _
            rfl
        · rw [if_neg hrange]
          constructor
          · intro hfalse
            cases hfalse
          · rintro ⟨-, hall⟩
            exact absurd (hall r rfl) hrange

/-- Witness for C6_year_validation at a concrete input: year 1800 is
rejected with an error naming the year field. -/
theorem C6_year_validation_witness :
    (1800 : Int) ≠ 0 ∧ ((1800 : Int) < 1900 ∨ (1800 : Int) > 2026 + 1) ∧
    validateMovie 2026 ⟨some "m1", some "T", none, none, some 1800, none, none⟩ =
      Except.error ("year", "Invalid year") :=
  ⟨by decide, Or.inl (by decide),
    (C6_year_validation 2026 "m1" "T" none none 1800 none none).1 (by decide)
      (Or.inl (by decide))⟩

/-- C7 counterexample: the claim says a movie with an empty title fails
validation; `MovieBase` has no non-empty check on `title` (only
`EpisodeBase` does), so the empty title validates successfully. -/
theorem C7_counterexample :
    validateMovie 2026 { id := some "m1", title := some "" } =
      Except.ok ⟨"m1", "", none, none, none, none, none⟩ := by
  rfl

/-- C7 (amended): a missing movie title fails validation (required field),
but an empty-string title is accepted and passed through verbatim — the
non-empty-after-trimming check exists only on episode titles
(`EpisodeBase.validate_title`). -/
theorem C7_title_validation (cy : Int) (i : MovieInput) :
    (i.title = none → (validateMovie cy i).isOk = false) ∧
    (∀ m, validateMovie cy i = Except.ok m → i.title = some m.title) ∧
    (∀ t : String, pyStrip t = "" → validate_title t = Except.error "Title cannot be empty") := by
  obtain ⟨ii, itl, io, idc, iy, idu, ir⟩ := i
  dsimp only
  refine ⟨?_, ?_, ?_⟩
  · intro hti
    subst hti
    unfold validateMovie
    rcases ii with _ | a <;> rfl
  · intro m hm
    unfold validateMovie at hm
    rcases ii with _ | a
    · cases hm
    · rcases itl with _ | t
      · cases hm
      · dsimp only at hm
        rcases hyv : validate_year cy iy with msg | yv <;> rw [hyv] at hm <;> dsimp only at hm
        · cases hm
        · rcases ir with _ | r <;> dsimp only at hm
          · injection hm with hm'
            subst hm'
            rfl
          · by_cases hrange : 0 ≤ r ∧ r ≤ 10
            · rw [if_pos hrange] at hm
              injection hm with hm'
              subst hm'
              rfl
            · rw [if_neg hrange] at hm
              cases hm
  · intro t ht
    unfold validate_title
    rw [if_pos (Or.inr ht)]

/-- Witness for C7_title_validation at a concrete input. -/
theorem C7_title_validation_witness :
    ({ id := some "m1" } : MovieInput).title = none ∧
    (validateMovie 2026 { id := some "m1" }).isOk = false ∧
    pyStrip "   " = "" ∧
    validate_title "   " = Except.error "Title cannot be empty" :=
  ⟨rfl, (C7_title_validation 2026 _).1 rfl, by decide,
    (C7_title_validation 2026 { id := some "m1" }).2.2 "   " (by decide)⟩

/-- C1: on a cache miss, `movie`, `series` and `watch` suppress
empty/absent (Python-falsy) resolver results — the cache is left unchanged
and a later request for the same key resolves again — while `home`,
`search` and `category` write the resolver result unconditionally, with
their TTLs, even when it is empty. -/
theorem C1_negative_result_suppression
    (rm rs rw : String → Json) (rh : Int → Json) (rq rc : String → Int → Json)
    (mid sid wid cat q : String) (page : Int) (c : Cache) (now now' : Nat) :
    (Cache.get c (movie_cache_key mid) now = none → pyTruthy (rm mid) = false →
      (get_movie_details rm mid c now).cache = c ∧
      (get_movie_details rm mid c now).resolved = true ∧
      (now ≤ now' → (get_movie_details rm mid ((get_movie_details rm mid c now).cache) now').resolved = true)) ∧
    (Cache.get c (series_cache_key sid) now = none → pyTruthy (rs sid) = false →
      (get_series_details rs sid c now).cache = c ∧
      (get_series_details rs sid c now).resolved = true ∧
      (now ≤ now' → (get_series_details rs sid ((get_series_details rs sid c now).cache) now').resolved = true)) ∧
    (Cache.get c (watch_cache_key wid) now = none → pyTruthy (rw wid) = false →
      (get_video_sources rw wid c now).cache = c ∧
      (get_video_sources rw wid c now).resolved = true ∧
      (now ≤ now' → (get_video_sources rw wid ((get_video_sources rw wid c now).cache) now').resolved = true)) ∧
    (Cache.get c (home_cache_key page) now = none →
      Cache.findEntry ((get_home_page rh page c now).cache) (home_cache_key page) =
        some (rh page, now + 3600)) ∧
    (Cache.get c (search_cache_key q page) now = none →
      Cache.findEntry ((search_content rq q page c now).cache) (search_cache_key q page) =
        some (rq q page, now + 1800)) ∧
    (Cache.get c (category_cache_key cat page) now = none →
      Cache.findEntry ((get_category rc cat page c now).cache) (category_cache_key cat page) =
        some (rc cat page, now + 3600)) := by
  refine ⟨?_, ?_, ?_, ?_, ?_, ?_⟩
  · intro hmiss hfalsy
    have h1 : get_movie_details rm mid c now = ⟨rm mid, c, true⟩ := by
      unfold get_movie_details
      rw [hmiss, hfalsy]
      simp
    refine ⟨by rw [h1], by rw [h1], ?_⟩
    intro hle
    rw [h1]
    unfold get_movie_details
    rw [Cache.get_none_mono hmiss hle]
  · intro hmiss hfalsy
    have h1 : get_series_details rs sid c now = ⟨rs sid, c, true⟩ := by
      unfold get_series_details
      rw [hmiss, hfalsy]
      simp
    refine ⟨by rw [h1], by rw [h1], ?_⟩
    intro hle
    rw [h1]
    unfold get_series_details
    rw [Cache.get_none_mono hmiss hle]
  · intro hmiss hfalsy
    have h1 : get_video_sources rw wid c now = ⟨rw wid, c, true⟩ := by
      unfold get_video_sources
      rw [hmiss, hfalsy]
      simp
    refine ⟨by rw [h1], by rw [h1], ?_⟩
    intro hle
    rw [h1]
    unfold get_video_sources
    rw [Cache.get_none_mono hmiss hle]
  · intro hmiss
    unfold get_home_page
    rw [hmiss]
    exact Cache.findEntry_setex_self ..
  · intro hmiss
    unfold search_content
    rw [hmiss]
    exact Cache.findEntry_setex_self ..
  · intro hmiss
    unfold get_category
    rw [hmiss]
    exact Cache.findEntry_setex_self ..

/-- Witness for C1_negative_result_suppression, instantiated with the
placeholder resolvers of main.py (whose movie/series/watch results are
falsy) on an empty cache. -/
theorem C1_negative_result_suppression_witness :
    Cache.get Cache.empty (movie_cache_key "m1") 0 = none ∧
    pyTruthy (get_movie_info "m1") = false ∧
    (get_movie_details get_movie_info "m1" Cache.empty 0).cache = Cache.empty ∧
    (get_video_sources extract_video_sources "w1"
      ((get_video_sources extract_video_sources "w1" Cache.empty 0).cache) 5).resolved = true ∧
    Cache.findEntry ((get_home_page get_home_content 1 Cache.empty 0).cache)
      (home_cache_key 1) = some (get_home_content 1, 3600) :=
  ⟨rfl, rfl,
    ((C1_negative_result_suppression get_movie_info get_series_info extract_video_sources
      get_home_content perform_search get_category_content
      "m1" "s1" "w1" "cat" "q" 1 Cache.empty 0 5).1 rfl rfl).1,
    (((C1_negative_result_suppression get_movie_info get_series_info extract_video_sources
      get_home_content perform_search get_category_content
      "m1" "s1" "w1" "cat" "q" 1 Cache.empty 0 5).2.2.1 rfl rfl).2.2 (by omega)),
    ((C1_negative_result_suppression get_movie_info get_series_info extract_video_sources
      get_home_content perform_search get_category_content
      "m1" "s1" "w1" "cat" "q" 1 Cache.empty 0 5).2.2.2.1 rfl)⟩

/-- C3: a present, unexpired entry is returned without calling the
resolver; and two sequential GetMovie calls for the same id within the TTL
window, the first of which resolves a truthy (non-absent) result, perform
exactly one resolution in the first call and none in the second, the second
returning the same data. -/
theorem C3_read_through_idempotent (resolver : String → Json) (mid : String)
    (c : Cache) (now now' : Nat) :
    (∀ v, Cache.get c (movie_cache_key mid) now = some v →
      get_movie_details resolver mid c now = ⟨v, c, false⟩) ∧
    (Cache.get c (movie_cache_key mid) now = none →
      pyTruthy (resolver mid) = true →
      now ≤ now' → now' < now + 7200 →
      (get_movie_details resolver mid c now).resolved = true ∧
      (get_movie_details resolver mid c now).response = resolver mid ∧
      (get_movie_details resolver mid ((get_movie_details resolver mid c now).cache) now').resolved
        = false ∧
      (get_movie_details resolver mid ((get_movie_details resolver mid c now).cache) now').response
        = (get_movie_details resolver mid c now).response) := by
  constructor
  · intro v hv
    unfold get_movie_details
    rw [hv]
  · intro hmiss htruthy hle hlt
    have h1 : get_movie_details resolver mid c now =
        ⟨resolver mid, Cache.setex c (movie_cache_key mid) 7200 (resolver mid) now, true⟩ := by
      unfold get_movie_details
      rw [hmiss, htruthy]
      simp
    have h2 : Cache.get (Cache.setex c (movie_cache_key mid) 7200 (resolver mid) now)
        (movie_cache_key mid) now' = some (resolver mid) := by
      rw [Cache.get_setex_self, if_pos (by omega)]
    refine ⟨by rw [h1], by rw [h1], ?_, ?_⟩ <;>
    · rw [h1]
      unfold get_movie_details
      rw [h2]

/-- Witness for C3_read_through_idempotent at a concrete input. -/
theorem C3_read_through_idempotent_witness :
    Cache.get Cache.empty (movie_cache_key "m1") 0 = none ∧
    pyTruthy ((fun _ => Json.obj [("title", Json.str "X")]) "m1") = true ∧
    ((get_movie_details (fun _ => Json.obj [("title", Json.str "X")]) "m1" Cache.empty 0).resolved
        = true ∧
      (get_movie_details (fun _ => Json.obj [("title", Json.str "X")]) "m1" Cache.empty 0).response
        = (fun _ => Json.obj [("title", Json.str "X")]) "m1" ∧
      (get_movie_details (fun _ => Json.obj [("title", Json.str "X")]) "m1"
        ((get_movie_details (fun _ => Json.obj [("title", Json.str "X")]) "m1" Cache.empty 0).cache)
        100).resolved = false ∧
      (get_movie_details (fun _ => Json.obj [("title", Json.str "X")]) "m1"
        ((get_movie_details (fun _ => Json.obj [("title", Json.str "X")]) "m1" Cache.empty 0).cache)
        100).response
        = (get_movie_details (fun _ => Json.obj [("title", Json.str "X")]) "m1" Cache.empty 0).response) :=
  ⟨rfl, rfl,
    (C3_read_through_idempotent (fun _ => Json.obj [("title", Json.str "X")]) "m1"
      Cache.empty 0 100).2 rfl rfl (by omega) (by omega)⟩

/-- C4: every cache population uses the per-operation TTL of the source:
3600 s for home, 1800 s for search, 7200 s for movie and series, 3600 s for
watch and category. -/
theorem C4_ttl_table
    (rm rs rw : String → Json) (rh : Int → Json) (rq rc : String → Int → Json)
    (mid sid wid cat q : String) (page : Int) (c : Cache) (now : Nat) :
    (Cache.get c (home_cache_key page) now = none →
      Cache.findEntry ((get_home_page rh page c now).cache) (home_cache_key page) =
        some (rh page, now + 3600)) ∧
    (Cache.get c (search_cache_key q page) now = none →
      Cache.findEntry ((search_content rq q page c now).cache) (search_cache_key q page) =
        some (rq q page, now + 1800)) ∧
    (Cache.get c (movie_cache_key mid) now = none → pyTruthy (rm mid) = true →
      Cache.findEntry ((get_movie_details rm mid c now).cache) (movie_cache_key mid) =
        some (rm mid, now + 7200)) ∧
    (Cache.get c (series_cache_key sid) now = none → pyTruthy (rs sid) = true →
      Cache.findEntry ((get_series_details rs sid c now).cache) (series_cache_key sid) =
        some (rs sid, now + 7200)) ∧
    (Cache.get c (watch_cache_key wid) now = none → pyTruthy (rw wid) = true →
      Cache.findEntry ((get_video_sources rw wid c now).cache) (watch_cache_key wid) =
        some (rw wid, now + 3600)) ∧
    (Cache.get c (category_cache_key cat page) now = none →
      Cache.findEntry ((get_category rc cat page c now).cache) (category_cache_key cat page) =
        some (rc cat page, now + 3600)) := by
  refine ⟨?_, ?_, ?_, ?_, ?_, ?_⟩
  · intro hmiss
    unfold get_home_page
    rw [hmiss]
    exact Cache.findEntry_setex_self ..
  · intro hmiss
    unfold search_content
    rw [hmiss]
    exact Cache.findEntry_setex_self ..
  · intro hmiss htruthy
    unfold get_movie_details
    rw [hmiss, htruthy]
    simp
    exact Cache.findEntry_setex_self ..
  · intro hmiss htruthy
    unfold get_series_details
    rw [hmiss, htruthy]
    simp
    exact Cache.findEntry_setex_self ..
  · intro hmiss htruthy
    unfold get_video_sources
    rw [hmiss, htruthy]
    simp
    exact Cache.findEntry_setex_self ..
  · intro hmiss
    unfold get_category
    rw [hmiss]
    exact Cache.findEntry_setex_self ..

/-- Witness for C4_ttl_table at concrete inputs. -/
theorem C4_ttl_table_witness :
    Cache.get Cache.empty (search_cache_key "q" 1) 0 = none ∧
    Cache.findEntry ((search_content perform_search "q" 1 Cache.empty 0).cache)
      (search_cache_key "q" 1) = some (perform_search "q" 1, 1800) ∧
    pyTruthy ((fun _ => Json.str "movie") "m2") = true ∧
    Cache.findEntry
      ((get_movie_details (fun _ => Json.str "movie") "m2" Cache.empty 0).cache)
      (movie_cache_key "m2") = some (Json.str "movie", 7200) :=
  ⟨rfl,
    (C4_ttl_table (fun _ => Json.str "movie") (fun _ => Json.str "series")
      (fun _ => Json.str "watch") get_home_content perform_search get_category_content
      "m2" "s2" "w2" "cat" "q" 1 Cache.empty 0).2.1 rfl,
    rfl,
    (C4_ttl_table (fun _ => Json.str "movie") (fun _ => Json.str "series")
      (fun _ => Json.str "watch") get_home_content perform_search get_category_content
      "m2" "s2" "w2" "cat" "q" 1 Cache.empty 0).2.2.1 rfl rfl⟩

/-- C10: when the resolver has no entity (returns `None`), GetMovie and
GetSeries return `null` directly — no exception, no error value, and
nothing written to the cache. -/
theorem C10_absent_result_passthrough
    (rm rs : String → Json) (mid sid : String) (c : Cache) (now : Nat) :
    (Cache.get c (movie_cache_key mid) now = none → rm mid = Json.null →
      get_movie_details rm mid c now = ⟨Json.null, c, true⟩) ∧
    (Cache.get c (series_cache_key sid) now = none → rs sid = Json.null →
      get_series_details rs sid c now = ⟨Json.null, c, true⟩) := by
  constructor
  · intro hmiss hres
    unfold get_movie_details
    rw [hmiss, hres]
    simp [pyTruthy]
  · intro hmiss hres
    unfold get_series_details
    rw [hmiss, hres]
    simp [pyTruthy]

/-- Witness for C10_absent_result_passthrough, using main.py's own
placeholder resolvers, which return `None`. -/
theorem C10_absent_result_passthrough_witness :
    Cache.get Cache.empty (movie_cache_key "m404") 0 = none ∧
    get_movie_info "m404" = Json.null ∧
    get_movie_details get_movie_info "m404" Cache.empty 0 = ⟨Json.null, Cache.empty, true⟩ ∧
    get_series_details get_series_info "s404" Cache.empty 0 = ⟨Json.null, Cache.empty, true⟩ :=
  ⟨rfl, rfl,
    (C10_absent_result_passthrough get_movie_info get_series_info "m404" "s404"
      Cache.empty 0).1 rfl rfl,
    (C10_absent_result_passthrough get_movie_info get_series_info "m404" "s404"
      Cache.empty 0).2 rfl rfl⟩

theorem sourceLe_rank_le {a b : VideoSource} (h : sourceLe a b = true) :
    qualityRank b.quality ≤ qualityRank a.quality := by
  unfold sourceLe at h
  by_cases hq : qualityRank a.quality = qualityRank b.quality
  · omega
  · rw [if_neg hq, decide_eq_true_eq] at h
    omega

theorem sourceLe_direct {a b : VideoSource} (h : sourceLe a b = true)
    (hq : a.quality = b.quality) (hb : b.is_direct = true) : a.is_direct = true := by
  unfold sourceLe at h
  have hq' : qualityRank a.quality = qualityRank b.quality := by rw [hq]
  rw [if_pos hq'] at h
  by_cases hd : a.is_direct = b.is_direct
  · rw [hd]
    exact hb
  · rw [if_neg hd] at h
    exact h

theorem sourceLe_bitrate {a b : VideoSource} (h : sourceLe a b = true)
    (hq : a.quality = b.quality) (hd : a.is_direct = b.is_direct)
    (x y : Int) (hx : a.bitrate = some x) (hy : b.bitrate = some y) : y ≤ x := by
  unfold sourceLe at h
  have hq' : qualityRank a.quality = qualityRank b.quality := by rw [hq]
  rw [if_pos hq', if_pos hd] at h
  unfold bitrateLe at h
  rw [hx, hy] at h
  exact of_decide_eq_true h

/-- C8: the Video Source Selector (modelled from spec §4.3, the source's
`extract_video_sources` being a stub) returns a permutation of its input
ordered best-first: quality descending, then `is_direct` descending, then
bitrate descending where both bitrates are present, tied pairs keeping
their input order (stability); and on the spec's concrete example
[{SD, direct, 500}, {HD, proxied, 300}, {HD, direct, 200}] it returns
[{HD, direct, 200}, {HD, proxied, 300}, {SD, direct, 500}]. -/
theorem C8_selector_ordering :
    (∀ l : List VideoSource,
      (rankSources l).Perm l ∧
      List.Pairwise (fun a b => qualityRank b.quality ≤ qualityRank a.quality) (rankSources l) ∧
      List.Pairwise (fun a b => a.quality = b.quality → b.is_direct = true → a.is_direct = true)
        (rankSources l) ∧
      List.Pairwise (fun a b => a.quality = b.quality → a.is_direct = b.is_direct →
        ∀ x y, a.bitrate = some x → b.bitrate = some y → y ≤ x) (rankSources l) ∧
      (∀ a b, sourceLe a b = true → sourceLe b a = true →
        List.Sublist [a, b] l → List.Sublist [a, b] (rankSources l))) ∧
    rankSources
        [⟨"https://cdn/sd.mp4", Quality.SD, "video/mp4", none, some 500, none, none, true, false⟩,
         ⟨"https://cdn/hd1.mp4", Quality.HD, "video/mp4", none, some 300, none, none, false, true⟩,
         ⟨"https://cdn/hd2.mp4", Quality.HD, "video/mp4", none, some 200, none, none, true, false⟩] =
      [⟨"https://cdn/hd2.mp4", Quality.HD, "video/mp4", none, some 200, none, none, true, false⟩,
       ⟨"https://cdn/hd1.mp4", Quality.HD, "video/mp4", none, some 300, none, none, false, true⟩,
       ⟨"https://cdn/sd.mp4", Quality.SD, "video/mp4", none, some 500, none, none, true, false⟩] := by
  constructor
  · intro l
    have hsorted : List.Pairwise SourceR (rankSources l) :=
      List.sorted_insertionSort SourceR l
    refine ⟨List.perm_insertionSort SourceR l, ?_, ?_, ?_, ?_⟩
    · exact hsorted.imp (fun h => sourceLe_rank_le h)
    · exact hsorted.imp (fun h hq hb => sourceLe_direct h hq hb)
    · exact hsorted.imp (fun h hq hd x y hx hy => sourceLe_bitrate h hq hd x y hx hy)
    · intro a b hab _ hsub
      have hp : List.Pairwise SourceR [a, b] := by
        constructor
        · intro c hc
          rw [List.mem_singleton] at hc
          subst hc
          exact hab
        · exact List.pairwise_singleton SourceR b
      exact List.sublist_insertionSort hp hsub
  · decide

/-- Witness for C8_selector_ordering: stability applied to a concrete tied
pair (same quality and directness, no bitrates). -/
theorem C8_selector_ordering_witness :
    sourceLe ⟨"https://cdn/a.mp4", Quality.HD, "video/mp4", none, none, none, none, true, false⟩
        ⟨"https://cdn/b.mp4", Quality.HD, "video/mp4", none, none, none, none, true, false⟩ = true ∧
    List.Sublist
      [⟨"https://cdn/a.mp4", Quality.HD, "video/mp4", none, none, none, none, true, false⟩,
       ⟨"https://cdn/b.mp4", Quality.HD, "video/mp4", none, none, none, none, true, false⟩]
      (rankSources
        [⟨"https://cdn/a.mp4", Quality.HD, "video/mp4", none, none, none, none, true, false⟩,
         ⟨"https://cdn/b.mp4", Quality.HD, "video/mp4", none, none, none, none, true, false⟩]) :=
  ⟨by decide,
    (C8_selector_ordering.1
      [⟨"https://cdn/a.mp4", Quality.HD, "video/mp4", none, none, none, none, true, false⟩,
       ⟨"https://cdn/b.mp4", Quality.HD, "video/mp4", none, none, none, none, true, false⟩]).2.2.2.2
      ⟨"https://cdn/a.mp4", Quality.HD, "video/mp4", none, none, none, none, true, false⟩
      ⟨"https://cdn/b.mp4", Quality.HD, "video/mp4", none, none, none, none, true, false⟩
      (by decide) (by decide) (by decide)⟩

/-- C9 counterexample: two simultaneous `GET /api/home` requests for page 1
on an empty cache, interleaved so that both read the cache before either
writes (schedule task 0 reads, task 1 reads, task 0 writes, task 1
writes), trigger two upstream resolutions — not the single resolution the
claim asserts; main.py has no per-key resolution lock. -/
theorem C9_counterexample :
    (runSched (fun _ => Json.obj [("sections", Json.arr [])])
        ⟨Cache.empty, [TaskPhase.ready 1, TaskPhase.ready 1], 0, 0⟩
        [0, 1, 0, 1]).resolutions = 2 := by
  rfl

/-- C9 (amended): the code has no per-key resolution lock, so each
concurrent same-key request that reads the cache before any write starts
its own upstream resolution: three simultaneous GetHome requests on an
empty cache, two of which read before either write and one of which runs
after the writes, perform exactly two resolutions (not one); all three
receive the identical resolver response, and the cache ends holding that
response with TTL 3600. -/
theorem C9_no_single_flight (resolver : Int → Json) (page : Int) (now : Nat) :
    (runSched resolver
        ⟨Cache.empty, [TaskPhase.ready page, TaskPhase.ready page, TaskPhase.ready page], 0, now⟩
        [0, 1, 0, 1, 2]).resolutions = 2 ∧
    (runSched resolver
        ⟨Cache.empty, [TaskPhase.ready page, TaskPhase.ready page, TaskPhase.ready page], 0, now⟩
        [0, 1, 0, 1, 2]).tasks =
      [TaskPhase.finished (resolver page), TaskPhase.finished (resolver page),
        TaskPhase.finished (resolver page)] ∧
    Cache.findEntry
      ((runSched resolver
          ⟨Cache.empty, [TaskPhase.ready page, TaskPhase.ready page, TaskPhase.ready page], 0, now⟩
          [0, 1, 0, 1, 2]).cache)
      (home_cache_key page) = some (resolver page, now + 3600) := by
  have hlt : now < now + 3600 := by omega
  refine ⟨?_, ?_, ?_⟩ <;>
    simp [runSched, stepTask, Cache.get, Cache.setex, Cache.empty, Cache.findEntry,
      List.find?, List.filter, hlt]
